import Mathlib

/-!
Verification of the CleanSheet document-sanitization gateway.

The development shallowly embeds the two source files of the repository:

* `app.py` — the Flask job controller (`upload_file`), the reputation
  client (`scan_with_virustotal`), and the sandbox supervisor
  (`sanitize_in_container`).
* `worker.py` — the in-container pipeline: CDR (`disarm_pdf`),
  rasterization (`pdf_to_pixels`), pixel re-emission (`pixels_to_pdf`),
  validation (`validate_output`) and the worker entry point (`main`).

External effects (HTTP, Docker, the filesystem, the VirusTotal service)
are modelled as explicit environment records holding the outcome of each
call site, and the controller functions are translated into pure
functions from these environments to event traces, mirroring the Python
control flow branch by branch.
-/

/-! ## Reputation client (`scan_with_virustotal`, app.py lines 37-128) -/

/-- The `last_analysis_stats` / analysis `stats` shape consumed by the
reputation client: per-category engine counts. -/
structure VTStats where
  malicious : Nat
  suspicious : Nat
  harmless : Nat
  undetected : Nat
deriving DecidableEq, Repr

/-- The distinguishable message families returned by
`scan_with_virustotal` (each constructor is one `return` site of the
Python function, identified by its message string). -/
inductive VTMessage
  | threatDetected (engines : Nat)
  | suspiciousFlag (engines : Nat)
  | cleanResult (engines : Nat)
  | noApiKey
  | analysisTimeout
  | uploadFailed
  | apiError
  | scanError
deriving DecidableEq, Repr

/-- Outcome of one iteration of the analysis polling loop
(app.py lines 90-114): the GET either reports `completed` with stats,
reports anything else (non-200 status or a non-completed analysis
status), or raises a transport exception. -/
inductive VTPoll
  | completed (stats : VTStats)
  | pending
  | raisedDuringPoll
deriving DecidableEq, Repr

/-- Outcome of the `POST /files` upload (app.py lines 76-87): accepted
(status 200 or 201, followed by a sequence of poll outcomes), rejected
(any other status), or a transport exception. -/
inductive VTUpload
  | accepted (polls : List VTPoll)
  | rejected
  | raisedDuringUpload
deriving DecidableEq, Repr

/-- Outcome of the initial `GET /files/<hash>` lookup
(app.py lines 50-54): found (200 with stats), not found (404, leading to
an upload), any other status, or a transport exception. -/
inductive VTLookup
  | found (stats : VTStats)
  | notFound (upload : VTUpload)
  | otherStatus
  | raisedDuringLookup
deriving DecidableEq, Repr

/-- Environment of one `scan_with_virustotal` call: whether the API key
is configured and the behaviour of the service on this call. -/
structure ScanEnv where
  apiKeyConfigured : Bool
  lookup : VTLookup
deriving DecidableEq, Repr

/-- Interpretation of `last_analysis_stats` in the hash-lookup regime,
app.py lines 56-70: `malicious > 0` is a threat, else `suspicious > 3`
is suspicious, else clean. -/
def interpretLookupStats (s : VTStats) : Bool × VTMessage :=
  if s.malicious > 0 then (false, .threatDetected s.malicious)
  else if s.suspicious > 3 then (false, .suspiciousFlag s.suspicious)
  else (true, .cleanResult (s.harmless + s.undetected))

/-- Interpretation of analysis `stats` in the submit-and-poll regime,
app.py lines 102-114 (textually the same branch structure as the
hash-lookup interpretation). -/
def interpretAnalysisStats (s : VTStats) : Bool × VTMessage :=
  if s.malicious > 0 then (false, .threatDetected s.malicious)
  else if s.suspicious > 3 then (false, .suspiciousFlag s.suspicious)
  else (true, .cleanResult (s.harmless + s.undetected))

/-- The polling loop body, app.py lines 90-114: examine poll outcomes in
order; a `completed` analysis is interpreted, anything pending is
skipped, a transport exception propagates to the outer handler which
returns the fail-open scan-error result. The caller truncates the list
to the 12 loop iterations. -/
def pollLoop : List VTPoll → Bool × VTMessage
  | [] => (true, .analysisTimeout)
  | .completed s :: _ => interpretAnalysisStats s
  | .pending :: rest => pollLoop rest
  | .raisedDuringPoll :: _ => (true, .scanError)

/-- `scan_with_virustotal`, app.py lines 37-128, as a function of the
call environment.  Returns the `(is_clean, message)` pair of the Python
function. -/
def scan_with_virustotal (env : ScanEnv) : Bool × VTMessage :=
  if env.apiKeyConfigured = false then (true, .noApiKey)
  else
    match env.lookup with
    | .found s => interpretLookupStats s
    | .otherStatus => (true, .apiError)
    | .raisedDuringLookup => (true, .scanError)
    | .notFound up =>
      match up with
      | .rejected => (true, .uploadFailed)
      | .raisedDuringUpload => (true, .scanError)
      | .accepted polls => pollLoop (polls.take 12)

/-! ### The abstract verdict lattice of the specification -/

/-- The four verdict classes of the specification data model. -/
inductive Verdict
  | malicious
  | suspicious
  | clean
  | indeterminate
deriving DecidableEq, Repr

/-- Classify a scan message into the verdict taxonomy of the spec:
threat messages are malicious, suspicious messages are suspicious,
clean messages are clean, every fail-open message is indeterminate. -/
def verdictOfMessage : VTMessage → Verdict
  | .threatDetected _ => .malicious
  | .suspiciousFlag _ => .suspicious
  | .cleanResult _ => .clean
  | .noApiKey => .indeterminate
  | .analysisTimeout => .indeterminate
  | .uploadFailed => .indeterminate
  | .apiError => .indeterminate
  | .scanError => .indeterminate

/-- Modelled from the spec wording, for the refinement comparison of
claim C3: with `malicious >= 1` the verdict is malicious, with
`malicious == 0 && suspicious > 3` it is suspicious, otherwise clean. -/
def specVerdictOfStats (s : VTStats) : Verdict :=
  if s.malicious ≥ 1 then .malicious
  else if s.suspicious > 3 then .suspicious
  else .clean

/-- Claim C3: for every reputation query whose returned stats have
`malicious >= 1` the interpreted verdict is malicious; with
`malicious == 0` and `suspicious > 3` it is suspicious; otherwise it is
clean — and the same interpretation applies in the hash-lookup regime
and in the submit-and-poll regime. -/
theorem C3_stats_interpretation (s : VTStats) :
    verdictOfMessage (interpretLookupStats s).2 = specVerdictOfStats s ∧
    verdictOfMessage (interpretAnalysisStats s).2 = specVerdictOfStats s ∧
    interpretAnalysisStats s = interpretLookupStats s := by
  unfold interpretLookupStats interpretAnalysisStats specVerdictOfStats
  refine ⟨?_, ?_, rfl⟩ <;> split_ifs with h1 h2 <;>
    simp_all [verdictOfMessage]

/-! ## Sandbox supervisor (`sanitize_in_container`, app.py lines 155-287) -/

/-- Container lifecycle and artifact events emitted by the supervisor,
in temporal order. `create` is the `client.containers.run` call,
`destroyCall` is a `container.remove(force=True)` call (the explicit one
at line 239 or the one in the `finally` block at lines 282-287), and
`removeOutput` is the `os.remove(output_path)` at line 264. -/
inductive CEvent
  | create
  | destroyCall
  | removeOutput
deriving DecidableEq, Repr

/-- Outcome of `container.wait(timeout=300)` (app.py line 229): either
the worker exited with a status code, or the call raised (wall-clock
timeout of the wait, or any other transport error). -/
inductive WaitOutcome
  | exited (code : Int)
  | raised
deriving DecidableEq, Repr

/-- Environment of one `sanitize_in_container` call: the outcome of each
external call site, in program order. -/
structure SanitizeEnv where
  /-- the `docker.DockerClient` connection and version query succeed -/
  dockerConnect : Bool
  /-- `client.images.get` finds `cleansheet-worker:latest` -/
  imageAvailable : Bool
  /-- when the image is missing, `client.images.build` succeeds -/
  buildOk : Bool
  /-- `client.containers.run` returns a container (else it raises) -/
  runOk : Bool
  /-- outcome of `container.wait(timeout=300)` -/
  waitOutcome : WaitOutcome
  /-- `container.logs()` and its decoding succeed (else they raise) -/
  logsOk : Bool
  /-- `os.path.exists(output_path)` after a zero worker exit -/
  outputExists : Bool
  /-- `os.path.getsize(output_path)` -/
  outputSize : Nat
  /-- environment of the post-scan `scan_with_virustotal` call -/
  postScan : ScanEnv
  /-- `os.path.exists(output_path)` at line 263, before the removal -/
  outputExistsAtRemove : Bool
deriving DecidableEq, Repr

/-- `sanitize_in_container`, app.py lines 155-287, as a function from
the call environment to the returned boolean and the ordered trace of
container and artifact events. The `finally` block (lines 282-287)
issues a `remove(force=True)` whenever the `container` variable is
non-None, that is, whenever `create` happened; on the path through
line 239 this is a second removal call whose failure is swallowed. -/
def sanitize_in_container (env : SanitizeEnv) : Bool × List CEvent :=
  if env.dockerConnect = false then (false, [])
  else if env.imageAvailable = false ∧ env.buildOk = false then (false, [])
  else if env.runOk = false then (false, [])
  else
    match env.waitOutcome with
    | .raised => (false, [.create, .destroyCall])
    | .exited code =>
      if env.logsOk = false then (false, [.create, .destroyCall])
      else if code ≠ 0 then (false, [.create, .destroyCall, .destroyCall])
      else if env.outputExists = false then (false, [.create, .destroyCall, .destroyCall])
      else if env.outputSize = 0 then (false, [.create, .destroyCall, .destroyCall])
      else if (scan_with_virustotal env.postScan).1 = false then
        (false, [.create, .destroyCall]
          ++ (if env.outputExistsAtRemove = true then [.removeOutput] else [])
          ++ [.destroyCall])
      else (true, [.create, .destroyCall, .destroyCall])

/-- A supervisor trace is sandbox-safe when at most one container is
created, every creation is followed later by a destruction call, and at
no prefix of the trace is more than one container alive (creations minus
destruction calls never exceed one, and never exceed zero once a
destruction happened for the single creation). -/
def sandboxSafe (tr : List CEvent) : Prop :=
  tr.count .create ≤ 1 ∧
  (∀ i : Fin tr.length, tr.get i = .create →
    ∃ j : Fin tr.length, i.val < j.val ∧ tr.get j = .destroyCall) ∧
  (∀ k : Fin (tr.length + 1),
    (tr.take k.val).count .create ≤ 1)

instance (tr : List CEvent) : Decidable (sandboxSafe tr) := by
  unfold sandboxSafe; infer_instance

/-- Every trace of the supervisor is one of five concrete shapes. -/
theorem sanitize_trace_shapes (env : SanitizeEnv) :
    (sanitize_in_container env).2 ∈ ([[],
      [.create, .destroyCall],
      [.create, .destroyCall, .destroyCall],
      [.create, .destroyCall, .removeOutput, .destroyCall]] : List (List CEvent)) := by
  unfold sanitize_in_container
  rcases env with ⟨dc, ia, bo, ro, wo, lo, oe, os, ps, oer⟩
  dsimp only
  cases dc <;> cases ia <;> cases bo <;> cases ro <;>
    rcases wo with code | _ <;> cases lo <;> cases oe <;> cases oer <;>
    simp <;>
    first
    | rfl
    | (by_cases hc : code = 0 <;>
        by_cases hs : os = 0 <;>
        cases hcl : (scan_with_virustotal ps).1 <;>
        simp [hc, hs, hcl])

/-- Claim C4: for every sandbox instance the supervisor creates, a
destruction call on that instance occurs before the supervisor returns,
on every exit path (normal worker exit, non-zero exit, timeout of the
wait, exception during launch, wait, or log capture), and at most one
sandbox instance per job is alive at any time. -/
theorem C4_container_destroyed (env : SanitizeEnv) :
    sandboxSafe (sanitize_in_container env).2 := by
  have h := sanitize_trace_shapes env
  simp only [List.mem_cons, List.not_mem_nil, or_false] at h
  rcases h with h | h | h | h <;> rw [h] <;> decide

/-- Witness for claim C4: the supervisor run in which every external
call succeeds and the post-scan is clean produces a sandbox-safe trace. -/
theorem C4_container_destroyed_witness :
    sandboxSafe (sanitize_in_container
      { dockerConnect := true, imageAvailable := true, buildOk := true,
        runOk := true, waitOutcome := .exited 0, logsOk := true,
        outputExists := true, outputSize := 5,
        postScan := { apiKeyConfigured := false, lookup := .otherStatus },
        outputExistsAtRemove := true }).2 :=
  C4_container_destroyed _

/-! ## Job controller (`upload_file`, app.py lines 935-1024) -/

/-- `MAX_FILE_SIZE`, app.py line 24: 100 MiB. -/
def MAX_FILE_SIZE : Nat := 100 * 1024 * 1024

/-- `ALLOWED_EXTENSIONS`, app.py line 21. -/
def ALLOWED_EXTENSIONS : List String :=
  ["pdf", "doc", "docx", "xls", "xlsx", "ppt", "pptx", "txt", "rtf",
   "odt", "jpg", "jpeg", "png"]

/-- `allowed_file`, app.py lines 26-27: the name contains a dot and the
lowercased text after the last dot (Python
`filename.rsplit('.', 1)[1].lower()`) is an allowed extension. The text
after the last dot is computed on the character list. -/
def allowed_file (filename : String) : Bool :=
  let cs := filename.data
  cs.contains '.' &&
    ALLOWED_EXTENSIONS.contains
      (String.mk (((cs.reverse.takeWhile (fun c => c ≠ '.')).reverse).map Char.toLower))

/-- The distinguishable response bodies of the POST branch of
`upload_file`: the four JSON error envelopes and the PDF attachment.
`oversize` is the body `{"error": "File size exceeds 100MB limit"}`
(app.py line 953), `noFile` is `{"error": "No file provided"}`,
`invalidKind` is `{"error": "Invalid file type"}`, `sanitizeFailed` is
`{"error": "Sanitization failed"}`. -/
inductive RespBody
  | noFile
  | invalidKind
  | oversize
  | sanitizeFailed
  | pdfAttachment
deriving DecidableEq, Repr

/-- Controller events, in temporal order.  `saveInput` is
`file.save(input_path)` (line 961); `removeOutputNow` is the output
removal the supervisor performs before the controller responds;
`removeInputNow` is the immediate `os.remove(input_path)` on the failure
path (line 1014); `respond status body threatHeaders` is the moment the
response is returned and its body transmitted, with `threatHeaders`
recording whether the `X-Threat-Warning` and `X-Threat-Details` headers
are attached; `cleanupRemoveInput` and `cleanupRemoveOutput` are the
removals inside the `call_on_close` closure (lines 998-1009), which the
framework runs only after the response body has been fully sent. -/
inductive JEvent
  | saveInput
  | removeOutputNow
  | removeInputNow
  | respond (status : Nat) (body : RespBody) (threatHeaders : Bool)
  | cleanupRemoveInput
  | cleanupRemoveOutput
deriving DecidableEq, Repr

/-- Environment of one POST request to `upload_file`: the request shape
and the outcome of every external call the handler makes. -/
structure RequestEnv where
  /-- `'file' in request.files` -/
  hasFileField : Bool
  /-- `file.filename` -/
  filename : String
  /-- the byte size measured by the seek/tell pair (lines 948-950) -/
  fileSize : Nat
  /-- environment of the pre-scan `scan_with_virustotal` call -/
  preScan : ScanEnv
  /-- environment of the `sanitize_in_container` call -/
  sanitize : SanitizeEnv
  /-- `os.path.exists(output_path)` after the 2-second sleep (line 981) -/
  outputExistsAfterSleep : Bool
  /-- `os.path.exists(input_path)` on the failure path (line 1013) -/
  inputExistsAtFail : Bool
  /-- `os.path.exists(input_path)` inside the cleanup closure -/
  inputExistsAtClose : Bool
  /-- `os.path.exists(output_path)` inside the cleanup closure -/
  outputExistsAtClose : Bool
deriving DecidableEq, Repr

/-- Output removals performed inside the supervisor surface in the
controller trace as `removeOutputNow`, since they too happen before the
controller responds; the other supervisor events are container
lifecycle, not artifact lifecycle, and stay internal. -/
def removalEvents (tr : List CEvent) : List JEvent :=
  tr.filterMap fun e =>
    match e with
    | .removeOutput => some JEvent.removeOutputNow
    | _ => none

/-- The POST branch of `upload_file`, app.py lines 937-1022, as a
function from the request environment to the ordered trace of controller
events. -/
def upload_file (env : RequestEnv) : List JEvent :=
  if env.hasFileField = false then [.respond 400 .noFile false]
  else if env.filename = "" ∨ allowed_file env.filename = false then
    [.respond 400 .invalidKind false]
  else if MAX_FILE_SIZE < env.fileSize then [.respond 400 .oversize false]
  else
    let pre := scan_with_virustotal env.preScan
    let threatDetected := !pre.1
    let san := sanitize_in_container env.sanitize
    .saveInput :: removalEvents san.2 ++
      (if san.1 = true ∧ env.outputExistsAfterSleep = true then
        [.respond 200 .pdfAttachment threatDetected]
          ++ (if env.inputExistsAtClose = true then [.cleanupRemoveInput] else [])
          ++ (if env.outputExistsAtClose = true then [.cleanupRemoveOutput] else [])
      else
        (if env.inputExistsAtFail = true then [.removeInputNow] else [])
          ++ [.respond 500 .sanitizeFailed false])

/-- The staging checks of lines 939-953 all pass: a file field is
present, the name is nonempty with an allowed extension, and the size is
within the limit. -/
def stagingOk (env : RequestEnv) : Prop :=
  env.hasFileField = true ∧ env.filename ≠ "" ∧
  allowed_file env.filename = true ∧ env.fileSize ≤ MAX_FILE_SIZE

/-- The supervisor reaches the post-scan call site (app.py line 258):
Docker connects, the worker image is available or builds, the container
launches, the worker exits zero, log capture succeeds, and the output
file exists with nonzero size. -/
def postScanReachable (e : SanitizeEnv) : Prop :=
  e.dockerConnect = true ∧ (e.imageAvailable = true ∨ e.buildOk = true) ∧
  e.runOk = true ∧ e.waitOutcome = .exited 0 ∧ e.logsOk = true ∧
  e.outputExists = true ∧ 0 < e.outputSize

instance (env : RequestEnv) : Decidable (stagingOk env) := by
  unfold stagingOk; infer_instance

instance (e : SanitizeEnv) : Decidable (postScanReachable e) := by
  unfold postScanReachable; infer_instance

/-! ### Helper lemmas about the scan result and the traces -/

/-- The boolean the reputation client returns is `False` exactly for the
threat and suspicious message families (hash-lookup interpretation). -/
theorem interpretLookupStats_flag (s : VTStats) :
    (interpretLookupStats s).1 = false ↔
      verdictOfMessage (interpretLookupStats s).2 = .malicious ∨
      verdictOfMessage (interpretLookupStats s).2 = .suspicious := by
  unfold interpretLookupStats
  split_ifs <;> simp [verdictOfMessage]

/-- The polling loop returns `False` exactly for the threat and
suspicious message families. -/
theorem pollLoop_flag (l : List VTPoll) :
    (pollLoop l).1 = false ↔
      verdictOfMessage (pollLoop l).2 = .malicious ∨
      verdictOfMessage (pollLoop l).2 = .suspicious := by
  induction l with
  | nil => simp [pollLoop, verdictOfMessage]
  | cons hd tl ih =>
    cases hd with
    | completed s => exact interpretLookupStats_flag s
    | pending => exact ih
    | raisedDuringPoll => simp [pollLoop, verdictOfMessage]

/-- `scan_with_virustotal` returns `is_clean = False` exactly when the
message classifies as a malicious or suspicious verdict. -/
theorem scan_flag (e : ScanEnv) :
    (scan_with_virustotal e).1 = false ↔
      verdictOfMessage (scan_with_virustotal e).2 = .malicious ∨
      verdictOfMessage (scan_with_virustotal e).2 = .suspicious := by
  unfold scan_with_virustotal
  cases hk : e.apiKeyConfigured with
  | false => simp [verdictOfMessage]
  | true =>
    simp only [Bool.true_eq_false, if_false]
    cases e.lookup with
    | found s => exact interpretLookupStats_flag s
    | otherStatus => simp [verdictOfMessage]
    | raisedDuringLookup => simp [verdictOfMessage]
    | notFound up =>
      cases up with
      | rejected => simp [verdictOfMessage]
      | raisedDuringUpload => simp [verdictOfMessage]
      | accepted polls => exact pollLoop_flag _

/-- Every event the supervisor contributes to the controller trace is an
output removal. -/
theorem removalEvents_all (tr : List CEvent) :
    ∀ x ∈ removalEvents tr, x = JEvent.removeOutputNow := by
  intro x hx
  rcases List.mem_filterMap.mp hx with ⟨a, _, ha⟩
  cases a <;> simp_all [removalEvents]

theorem removalEvents_notclean :
    removalEvents [.create, .destroyCall, .removeOutput, .destroyCall] =
      [.removeOutputNow] := rfl

theorem removalEvents_clean :
    removalEvents [.create, .destroyCall, .destroyCall] = [] := rfl

/-- When the supervisor reaches the post-scan and the scan flags the
output, the output file is removed and the supervisor fails: the run is
exactly create, explicit destroy, output removal, final destroy. -/
theorem sanitize_postscan_notclean (e : SanitizeEnv)
    (h : postScanReachable e)
    (hs : (scan_with_virustotal e.postScan).1 = false)
    (ho : e.outputExistsAtRemove = true) :
    sanitize_in_container e =
      (false, [.create, .destroyCall, .removeOutput, .destroyCall]) := by
  obtain ⟨h1, h2, h3, h4, h5, h6, h7⟩ := h
  have h7' : e.outputSize ≠ 0 := Nat.pos_iff_ne_zero.mp h7
  rcases h2 with h2 | h2 <;>
    simp [sanitize_in_container, h1, h2, h3, h4, h5, h6, h7', hs, ho]

/-- When the supervisor reaches the post-scan and the scan is clean or
fail-open, the supervisor succeeds. -/
theorem sanitize_postscan_clean (e : SanitizeEnv)
    (h : postScanReachable e)
    (hs : (scan_with_virustotal e.postScan).1 = true) :
    sanitize_in_container e = (true, [.create, .destroyCall, .destroyCall]) := by
  obtain ⟨h1, h2, h3, h4, h5, h6, h7⟩ := h
  have h7' : e.outputSize ≠ 0 := Nat.pos_iff_ne_zero.mp h7
  rcases h2 with h2 | h2 <;>
    simp [sanitize_in_container, h1, h2, h3, h4, h5, h6, h7', hs]

/-- When the staging checks pass, the controller trace is the saved
input followed by the supervisor removals and then one of the two
response tails. -/
theorem upload_file_staged (env : RequestEnv) (h : stagingOk env) :
    upload_file env =
      .saveInput :: removalEvents (sanitize_in_container env.sanitize).2 ++
        (if (sanitize_in_container env.sanitize).1 = true ∧
            env.outputExistsAfterSleep = true then
          [.respond 200 .pdfAttachment (!(scan_with_virustotal env.preScan).1)]
            ++ (if env.inputExistsAtClose = true then [.cleanupRemoveInput] else [])
            ++ (if env.outputExistsAtClose = true then [.cleanupRemoveOutput] else [])
        else
          (if env.inputExistsAtFail = true then [.removeInputNow] else [])
            ++ [.respond 500 .sanitizeFailed false]) := by
  obtain ⟨h1, h2, h3, h4⟩ := h
  have h4' : ¬ MAX_FILE_SIZE < env.fileSize := not_lt.mpr h4
  simp [upload_file, h1, h2, h3, h4']

/-! ### Shared concrete fixtures -/

/-- A reputation call that finds the hash with fully clean stats. -/
def cleanFoundScan : ScanEnv :=
  { apiKeyConfigured := true, lookup := .found ⟨0, 0, 70, 5⟩ }

/-- A reputation call that finds the hash with two malicious flags. -/
def malFoundScan : ScanEnv :=
  { apiKeyConfigured := true, lookup := .found ⟨2, 0, 0, 0⟩ }

/-- A supervisor environment in which every external call succeeds and
the post-scan finds clean stats. -/
def baseSanitizeEnv : SanitizeEnv :=
  { dockerConnect := true, imageAvailable := true, buildOk := true,
    runOk := true, waitOutcome := .exited 0, logsOk := true,
    outputExists := true, outputSize := 1024,
    postScan := cleanFoundScan, outputExistsAtRemove := true }

/-- A request environment for a small clean PDF on which the whole
pipeline succeeds and every existence probe answers true. -/
def baseRequestEnv : RequestEnv :=
  { hasFileField := true, filename := "report.pdf", fileSize := 1024,
    preScan := cleanFoundScan, sanitize := baseSanitizeEnv,
    outputExistsAfterSleep := true, inputExistsAtFail := true,
    inputExistsAtClose := true, outputExistsAtClose := true }

/-! ### Claim C1 -/

/-- Claim C1, counterexample: a fully successful (delivered) job whose
controller trace removes the input only inside the deferred
`call_on_close` closure, after the response has been transmitted. There
is no immediate input removal event at all, refuting the claim that the
removal of the input file is immediate and happens before or at the
moment the response is sent on the delivered path. -/
theorem C1_counterexample_input_removal_deferred :
    upload_file baseRequestEnv =
      [.saveInput, .respond 200 .pdfAttachment false,
       .cleanupRemoveInput, .cleanupRemoveOutput] ∧
    JEvent.removeInputNow ∉ upload_file baseRequestEnv := by decide

/-- Claim C1 (amended): entry into the delivered state schedules removal
of both input and output, but both removals are deferred until the HTTP
response body has been transmitted (the input removal is not immediate);
on the normal failure path the input file is removed immediately, just
before the 500 response is sent. -/
theorem C1_cleanup_schedule (env : RequestEnv) (h : stagingOk env) :
    ((sanitize_in_container env.sanitize).1 = true →
      env.outputExistsAfterSleep = true →
      env.inputExistsAtClose = true → env.outputExistsAtClose = true →
      (∃ pre, upload_file env = pre ++
        [.respond 200 .pdfAttachment (!(scan_with_virustotal env.preScan).1),
         .cleanupRemoveInput, .cleanupRemoveOutput]) ∧
      JEvent.removeInputNow ∉ upload_file env) ∧
    (¬((sanitize_in_container env.sanitize).1 = true ∧
        env.outputExistsAfterSleep = true) →
      env.inputExistsAtFail = true →
      ∃ pre, upload_file env = pre ++
        [.removeInputNow, .respond 500 .sanitizeFailed false]) := by
  constructor
  · intro hsan hout hic hoc
    constructor
    · refine ⟨.saveInput :: removalEvents (sanitize_in_container env.sanitize).2, ?_⟩
      rw [upload_file_staged env h, if_pos ⟨hsan, hout⟩, if_pos hic, if_pos hoc]
      simp
    · have hni : JEvent.removeInputNow ∉
          removalEvents (sanitize_in_container env.sanitize).2 := fun hm => by
        simpa using removalEvents_all _ _ hm
      rw [upload_file_staged env h, if_pos ⟨hsan, hout⟩, if_pos hic, if_pos hoc]
      simp [hni]
  · intro hnot hif
    refine ⟨.saveInput :: removalEvents (sanitize_in_container env.sanitize).2, ?_⟩
    rw [upload_file_staged env h, if_neg hnot, if_pos hif]
    simp

/-- Witness for the amended claim C1, at the concrete delivered run and
at the same run with a failing worker. -/
theorem C1_cleanup_schedule_witness :
    ((∃ pre, upload_file baseRequestEnv = pre ++
        [.respond 200 .pdfAttachment
          (!(scan_with_virustotal baseRequestEnv.preScan).1),
         .cleanupRemoveInput, .cleanupRemoveOutput]) ∧
      JEvent.removeInputNow ∉ upload_file baseRequestEnv) ∧
    (∃ pre, upload_file { baseRequestEnv with
        sanitize := { baseSanitizeEnv with waitOutcome := .exited 1 } } = pre ++
      [.removeInputNow, .respond 500 .sanitizeFailed false]) :=
  ⟨(C1_cleanup_schedule baseRequestEnv (by decide)).1 (by decide) (by decide)
      (by decide) (by decide),
   (C1_cleanup_schedule { baseRequestEnv with
        sanitize := { baseSanitizeEnv with waitOutcome := .exited 1 } }
      (by decide)).2 (by decide) (by decide)⟩

/-! ### Claim C2 -/

/-- Claim C2: a malicious post-scan verdict destroys the output file and
fails the job with HTTP 500; a malicious pre-scan verdict lets
processing proceed and is propagated only as the threat-warning headers
on the delivered artifact. -/
theorem C2_malicious_verdict_handling :
    (∀ env : RequestEnv, stagingOk env → postScanReachable env.sanitize →
      env.sanitize.outputExistsAtRemove = true →
      verdictOfMessage (scan_with_virustotal env.sanitize.postScan).2 = .malicious →
      JEvent.removeOutputNow ∈ upload_file env ∧
      JEvent.respond 500 .sanitizeFailed false ∈ upload_file env ∧
      (sanitize_in_container env.sanitize).1 = false) ∧
    (∀ env : RequestEnv, stagingOk env →
      verdictOfMessage (scan_with_virustotal env.preScan).2 = .malicious →
      (sanitize_in_container env.sanitize).1 = true →
      env.outputExistsAfterSleep = true →
      JEvent.respond 200 .pdfAttachment true ∈ upload_file env) := by
  constructor
  · intro env h hreach ho hverd
    have hflag : (scan_with_virustotal env.sanitize.postScan).1 = false :=
      (scan_flag _).mpr (Or.inl hverd)
    have hsan := sanitize_postscan_notclean _ hreach hflag ho
    have htr : upload_file env =
        .saveInput :: [JEvent.removeOutputNow] ++
          ((if env.inputExistsAtFail = true then [.removeInputNow] else [])
            ++ [.respond 500 .sanitizeFailed false]) := by
      rw [upload_file_staged env h, hsan, removalEvents_notclean]
      simp
    rw [htr]
    refine ⟨by simp, by simp, by rw [hsan]⟩
  · intro env h hverd hsanok hout
    have hflag : (scan_with_virustotal env.preScan).1 = false :=
      (scan_flag _).mpr (Or.inl hverd)
    rw [upload_file_staged env h, if_pos ⟨hsanok, hout⟩, hflag]
    simp

/-- Witness for claim C2: a post-scan that finds two malicious flags on
the output, and a pre-scan that finds two malicious flags on the
input. -/
theorem C2_malicious_verdict_handling_witness :
    (JEvent.removeOutputNow ∈ upload_file { baseRequestEnv with
        sanitize := { baseSanitizeEnv with postScan := malFoundScan } } ∧
      JEvent.respond 500 .sanitizeFailed false ∈ upload_file { baseRequestEnv with
        sanitize := { baseSanitizeEnv with postScan := malFoundScan } } ∧
      (sanitize_in_container { baseSanitizeEnv with postScan := malFoundScan }).1
        = false) ∧
    JEvent.respond 200 .pdfAttachment true ∈
      upload_file { baseRequestEnv with preScan := malFoundScan } :=
  ⟨C2_malicious_verdict_handling.1 _ (by decide) (by decide) (by decide) (by decide),
   C2_malicious_verdict_handling.2 { baseRequestEnv with preScan := malFoundScan }
     (by decide) (by decide) (by decide) (by decide)⟩

/-! ### Claim C7 -/

/-- A transport exception occurs somewhere in the polling sequence
before any completed analysis is seen. -/
def pollsRaise : List VTPoll → Bool
  | [] => false
  | .pending :: rest => pollsRaise rest
  | .raisedDuringPoll :: _ => true
  | .completed _ :: _ => false

/-- A transport error occurs somewhere in the reputation call chain
before a verdict is reached. -/
def transportErrorLookup : VTLookup → Bool
  | .raisedDuringLookup => true
  | .notFound .raisedDuringUpload => true
  | .notFound (.accepted polls) => pollsRaise (polls.take 12)
  | _ => false

/-- Degraded operation for one scan call: no API credential configured,
or a transport error during the call chain. -/
def degradedScan (e : ScanEnv) : Prop :=
  e.apiKeyConfigured = false ∨ transportErrorLookup e.lookup = true

instance (e : ScanEnv) : Decidable (degradedScan e) := by
  unfold degradedScan; infer_instance

/-- A transport exception inside the polling loop propagates to the
fail-open handler. -/
theorem pollsRaise_pollLoop (l : List VTPoll) (h : pollsRaise l = true) :
    pollLoop l = (true, .scanError) := by
  induction l with
  | nil => simp [pollsRaise] at h
  | cons hd tl ih =>
    cases hd with
    | completed s => simp [pollsRaise] at h
    | pending => exact ih h
    | raisedDuringPoll => rfl

/-- A degraded scan returns `is_clean = True` with an indeterminate
message. -/
theorem degraded_scan_result (e : ScanEnv) (h : degradedScan e) :
    (scan_with_virustotal e).1 = true ∧
    verdictOfMessage (scan_with_virustotal e).2 = .indeterminate := by
  rcases h with h | h
  · simp [scan_with_virustotal, h, verdictOfMessage]
  · unfold scan_with_virustotal
    cases hk : e.apiKeyConfigured with
    | false => simp [verdictOfMessage]
    | true =>
      simp only [Bool.true_eq_false, if_false]
      cases hl : e.lookup with
      | found s => rw [hl] at h; simp [transportErrorLookup] at h
      | otherStatus => simp [verdictOfMessage]
      | raisedDuringLookup => simp [verdictOfMessage]
      | notFound up =>
        cases up with
        | rejected => rw [hl] at h; simp [transportErrorLookup] at h
        | raisedDuringUpload => simp [verdictOfMessage]
        | accepted polls =>
          rw [hl] at h
          unfold transportErrorLookup at h
          dsimp only at h ⊢
          rw [pollsRaise_pollLoop _ h]
          simp [verdictOfMessage]

/-- Claim C7: when no API credential is configured or a transport error
occurs during the reputation scans, both scans yield an indeterminate
verdict and processing proceeds fail-open: the job is delivered with
HTTP 200 and carries no threat-warning headers. -/
theorem C7_degraded_fail_open (env : RequestEnv) (h : stagingOk env)
    (hpre : degradedScan env.preScan)
    (hpost : degradedScan env.sanitize.postScan)
    (hreach : postScanReachable env.sanitize)
    (hout : env.outputExistsAfterSleep = true) :
    verdictOfMessage (scan_with_virustotal env.preScan).2 = .indeterminate ∧
    verdictOfMessage (scan_with_virustotal env.sanitize.postScan).2 = .indeterminate ∧
    JEvent.respond 200 .pdfAttachment false ∈ upload_file env ∧
    ∀ st b, JEvent.respond st b true ∉ upload_file env := by
  obtain ⟨hpre1, hpre2⟩ := degraded_scan_result _ hpre
  obtain ⟨hpost1, hpost2⟩ := degraded_scan_result _ hpost
  have hsan := sanitize_postscan_clean _ hreach hpost1
  have htr : upload_file env =
      .saveInput ::
        (([.respond 200 .pdfAttachment false]
          ++ (if env.inputExistsAtClose = true then [JEvent.cleanupRemoveInput] else []))
          ++ (if env.outputExistsAtClose = true then [JEvent.cleanupRemoveOutput] else [])) := by
    rw [upload_file_staged env h, hsan, removalEvents_clean, hpre1]
    simp [hout]
  refine ⟨hpre2, hpost2, ?_, ?_⟩
  · rw [htr]
    simp
  · intro st b
    rw [htr]
    split_ifs <;> simp

/-- A scan call with no API key configured. -/
def noKeyScan : ScanEnv := { apiKeyConfigured := false, lookup := .otherStatus }

/-- The fully successful request run, with no API key configured for
either scan. -/
def degradedRequestEnv : RequestEnv :=
  { baseRequestEnv with
    preScan := noKeyScan,
    sanitize := { baseSanitizeEnv with postScan := noKeyScan } }

/-- Witness for claim C7: the concrete run with no API key configured
for either scan. -/
theorem C7_degraded_fail_open_witness :
    JEvent.respond 200 .pdfAttachment false ∈ upload_file degradedRequestEnv ∧
    JEvent.respond 200 .pdfAttachment true ∉ upload_file degradedRequestEnv :=
  ⟨(C7_degraded_fail_open _ (by decide) (by decide) (by decide) (by decide)
      (by decide)).2.2.1,
   (C7_degraded_fail_open _ (by decide) (by decide) (by decide) (by decide)
      (by decide)).2.2.2 200 .pdfAttachment⟩

/-! ### Claim C9 -/

/-- Claim C9: an upload of exactly 100 MiB passes the size check and is
staged; an upload above 100 MiB is rejected with HTTP 400 and the
oversize JSON body, and its trace contains no staging event — the
rejection happens before the file is saved. -/
theorem C9_size_limit (env : RequestEnv)
    (h1 : env.hasFileField = true) (h2 : env.filename ≠ "")
    (h3 : allowed_file env.filename = true) :
    (env.fileSize = MAX_FILE_SIZE →
      JEvent.saveInput ∈ upload_file env ∧
      ∀ b t, JEvent.respond 400 b t ∉ upload_file env) ∧
    (MAX_FILE_SIZE < env.fileSize →
      upload_file env = [.respond 400 .oversize false]) := by
  constructor
  · intro hsz
    have h : stagingOk env := ⟨h1, h2, h3, le_of_eq hsz⟩
    constructor
    · rw [upload_file_staged env h]
      simp
    · intro b t
      have hni : JEvent.respond 400 b t ∉
          removalEvents (sanitize_in_container env.sanitize).2 := fun hm => by
        simpa using removalEvents_all _ _ hm
      rw [upload_file_staged env h]
      split_ifs <;> simp [hni]
  · intro hsz
    simp [upload_file, h1, h2, h3, hsz]

/-- The fully successful request run at exactly the size limit. -/
def atLimitRequestEnv : RequestEnv :=
  { baseRequestEnv with fileSize := MAX_FILE_SIZE }

/-- The request run one byte above the size limit. -/
def overLimitRequestEnv : RequestEnv :=
  { baseRequestEnv with fileSize := MAX_FILE_SIZE + 1 }

/-- Witness for claim C9: a 100 MiB upload is staged with no 400
response, and a 100 MiB + 1 upload is rejected before staging. -/
theorem C9_size_limit_witness :
    (JEvent.saveInput ∈ upload_file atLimitRequestEnv ∧
      JEvent.respond 400 .oversize false ∉ upload_file atLimitRequestEnv) ∧
    upload_file overLimitRequestEnv = [.respond 400 .oversize false] :=
  ⟨⟨((C9_size_limit atLimitRequestEnv
        (by decide) (by decide) (by decide)).1 rfl).1,
    ((C9_size_limit atLimitRequestEnv
        (by decide) (by decide) (by decide)).1 rfl).2 .oversize false⟩,
   (C9_size_limit overLimitRequestEnv
      (by decide) (by decide) (by decide)).2 (by decide)⟩

/-! ### Claim C10 -/

/-- Claim C10: a post-scan whose stats have `malicious == 0` and
`suspicious > 3` (a suspicious verdict, not malicious) destroys the
output and fails the job with HTTP 500, with exactly the same supervisor
outcome as a malicious post-scan verdict. -/
theorem C10_suspicious_postscan (env : RequestEnv) (s : VTStats)
    (h : stagingOk env) (hreach : postScanReachable env.sanitize)
    (ho : env.sanitize.outputExistsAtRemove = true)
    (hk : env.sanitize.postScan.apiKeyConfigured = true)
    (hl : env.sanitize.postScan.lookup = .found s)
    (hm : s.malicious = 0) (hs : 3 < s.suspicious) :
    sanitize_in_container env.sanitize =
      (false, [.create, .destroyCall, .removeOutput, .destroyCall]) ∧
    (∀ s' : VTStats, 0 < s'.malicious →
      sanitize_in_container { env.sanitize with
        postScan := { apiKeyConfigured := true, lookup := .found s' } } =
      sanitize_in_container env.sanitize) ∧
    JEvent.removeOutputNow ∈ upload_file env ∧
    JEvent.respond 500 .sanitizeFailed false ∈ upload_file env := by
  have hscan : (scan_with_virustotal env.sanitize.postScan).1 = false := by
    simp [scan_with_virustotal, hk, hl, interpretLookupStats, hm, hs]
  have hsan := sanitize_postscan_notclean _ hreach hscan ho
  obtain ⟨r1, r2, r3, r4, r5, r6, r7⟩ := hreach
  have htr : upload_file env =
      .saveInput :: [JEvent.removeOutputNow] ++
        ((if env.inputExistsAtFail = true then [JEvent.removeInputNow] else [])
          ++ [.respond 500 .sanitizeFailed false]) := by
    rw [upload_file_staged env h, hsan, removalEvents_notclean]
    simp
  refine ⟨hsan, ?_, ?_, ?_⟩
  · intro s' hm'
    have hreach' : postScanReachable { env.sanitize with
        postScan := { apiKeyConfigured := true, lookup := .found s' } } :=
      ⟨r1, r2, r3, r4, r5, r6, r7⟩
    have hscan' :
        (scan_with_virustotal
          { apiKeyConfigured := true, lookup := VTLookup.found s' }).1 = false := by
      simp [scan_with_virustotal, interpretLookupStats, hm']
    rw [hsan, sanitize_postscan_notclean _ hreach' hscan' ho]
  · rw [htr]
    simp
  · rw [htr]
    split_ifs <;> simp

/-- A reputation call that finds the hash with five suspicious flags and
no malicious flag. -/
def suspFoundScan : ScanEnv :=
  { apiKeyConfigured := true, lookup := .found ⟨0, 5, 60, 0⟩ }

/-- The fully successful request run whose post-scan finds five
suspicious flags. -/
def suspPostRequestEnv : RequestEnv :=
  { baseRequestEnv with
    sanitize := { baseSanitizeEnv with postScan := suspFoundScan } }

/-- Witness for claim C10: a post-scan finding five suspicious flags. -/
theorem C10_suspicious_postscan_witness :
    sanitize_in_container suspPostRequestEnv.sanitize =
      (false, [.create, .destroyCall, .removeOutput, .destroyCall]) ∧
    JEvent.respond 500 .sanitizeFailed false ∈ upload_file suspPostRequestEnv :=
  ⟨(C10_suspicious_postscan suspPostRequestEnv ⟨0, 5, 60, 0⟩
      (by decide) (by decide) (by decide) (by decide) (by decide) (by decide)
      (by decide)).1,
   (C10_suspicious_postscan suspPostRequestEnv ⟨0, 5, 60, 0⟩
      (by decide) (by decide) (by decide) (by decide) (by decide) (by decide)
      (by decide)).2.2.2⟩

/-! ## CDR transformer (`disarm_pdf`, worker.py lines 38-103) -/

/-- A PDF page dictionary as `disarm_pdf` sees it: the three entries the
pass deletes, plus the remaining page content, which the pass never
touches. The payloads are abstract. -/
structure PdfPage where
  annots : Option Nat
  aa : Option Nat
  action : Option Nat
  content : Nat
deriving DecidableEq, Repr

/-- The `/Names` subtree of a document catalog: the two entries the pass
deletes plus the remaining name trees. -/
structure NamesTree where
  javascript : Option Nat
  embeddedFiles : Option Nat
  otherNames : Nat
deriving DecidableEq, Repr

/-- A document catalog as `disarm_pdf` addresses it: the optional
`/Names` subtree and the optional `/OpenAction` entry. -/
structure Catalog where
  names : Option NamesTree
  openAction : Option Nat
deriving DecidableEq, Repr

/-- The information dictionary: either the original metadata or the
fixed synthetic dictionary written by `writer.add_metadata`
(worker.py lines 83-90), stamped with the current time. -/
inductive InfoState
  | original (d : Nat)
  | sanitized (timestamp : Nat)
deriving DecidableEq, Repr

/-- A PDF document in the shape `disarm_pdf` manipulates. -/
structure PdfDoc where
  pages : List PdfPage
  catalog : Catalog
  info : InfoState
deriving DecidableEq, Repr

/-- The per-page pass of `disarm_pdf`, worker.py lines 53-66: delete
`/Annots`, `/AA` and `/A` when present; each deletion is guarded by a
membership test, so an absent entry is a no-op. -/
def disarmPage (page : PdfPage) : PdfPage :=
  let page := if page.annots.isSome then { page with annots := none } else page
  let page := if page.aa.isSome then { page with aa := none } else page
  if page.action.isSome then { page with action := none } else page

/-- The catalog pass of `disarm_pdf`, worker.py lines 68-80: delete
`/Names/JavaScript`, `/Names/EmbeddedFiles` and `/OpenAction` from the
writer root when present, each deletion guarded by a membership test.
PyPDF2 starts the writer root fresh, so in the running program these
entries are absent to begin with; the pass is modelled over an arbitrary
root, the worst case for the claim. -/
def disarmCatalog (root : Catalog) : Catalog :=
  let root :=
    match root.names with
    | some nt =>
      if nt.javascript.isSome then
        { root with names := some { nt with javascript := none } }
      else root
    | none => root
  let root :=
    match root.names with
    | some nt =>
      if nt.embeddedFiles.isSome then
        { root with names := some { nt with embeddedFiles := none } }
      else root
    | none => root
  if root.openAction.isSome then { root with openAction := none } else root

/-- `disarm_pdf`, worker.py lines 38-103: map the page pass over all
pages, apply the catalog pass, and replace the information dictionary by
the fixed synthetic one stamped `now`.  Returns the success boolean of
the Python function; inside the structured model no library exception
can occur, so the pass always reports success — in particular the
absence of any entry never produces the failure return. -/
def disarm_pdf (doc : PdfDoc) (now : Nat) : Bool × PdfDoc :=
  (true,
    { pages := doc.pages.map disarmPage,
      catalog := disarmCatalog doc.catalog,
      info := .sanitized now })

/-- Claim C5: after a successful CDR pass no page carries `/Annots`,
`/AA` or `/A`, the catalog carries no `/Names/JavaScript`,
`/Names/EmbeddedFiles` or `/OpenAction`; and an absent entry is a no-op
— page content is always preserved, a page with all three entries absent
is returned unchanged, a catalog with no `/Names` and no `/OpenAction`
is returned unchanged, and absence never causes a failure return. -/
theorem C5_cdr_disarm (doc : PdfDoc) (now : Nat) :
    (disarm_pdf doc now).1 = true ∧
    (∀ p ∈ (disarm_pdf doc now).2.pages,
      p.annots = none ∧ p.aa = none ∧ p.action = none) ∧
    (∀ nt, (disarm_pdf doc now).2.catalog.names = some nt →
      nt.javascript = none ∧ nt.embeddedFiles = none) ∧
    (disarm_pdf doc now).2.catalog.openAction = none ∧
    (∀ page : PdfPage, (disarmPage page).content = page.content) ∧
    (∀ page : PdfPage, page.annots = none → page.aa = none →
      page.action = none → disarmPage page = page) ∧
    (doc.catalog.names = none → doc.catalog.openAction = none →
      (disarm_pdf doc now).2.catalog = doc.catalog) := by
  have hpage : ∀ page : PdfPage,
      (disarmPage page).annots = none ∧ (disarmPage page).aa = none ∧
      (disarmPage page).action = none ∧ (disarmPage page).content = page.content := by
    intro page
    rcases page with ⟨a, b, c, d⟩
    cases a <;> cases b <;> cases c <;> simp [disarmPage]
  have hcat : ∀ root : Catalog,
      (∀ nt, (disarmCatalog root).names = some nt →
        nt.javascript = none ∧ nt.embeddedFiles = none) ∧
      (disarmCatalog root).openAction = none := by
    intro root
    rcases root with ⟨names, oa⟩
    rcases names with _ | ⟨⟨js, ef, onm⟩⟩ <;> cases oa <;>
      (try cases js) <;> (try cases ef) <;> simp [disarmCatalog]
  refine ⟨rfl, ?_, (hcat doc.catalog).1, (hcat doc.catalog).2, ?_, ?_, ?_⟩
  · intro p hp
    rcases List.mem_map.mp hp with ⟨q, _, rfl⟩
    exact ⟨(hpage q).1, (hpage q).2.1, (hpage q).2.2.1⟩
  · intro page
    exact (hpage page).2.2.2
  · intro page h1 h2 h3
    rcases page with ⟨a, b, c, d⟩
    simp_all [disarmPage]
  · intro h1 h2
    simp [disarm_pdf, disarmCatalog, h1, h2]

/-- Witness for claim C5: a document with one fully armed page, a
JavaScript and embedded-file name tree and an open action, and an
already disarmed page. -/
theorem C5_cdr_disarm_witness :
    (disarm_pdf
      { pages := [⟨some 7, some 8, some 9, 3⟩, ⟨none, none, none, 4⟩],
        catalog := { names := some ⟨some 1, some 2, 5⟩, openAction := some 6 },
        info := .original 11 } 99).1 = true ∧
    disarmPage ⟨none, none, none, 4⟩ = ⟨none, none, none, 4⟩ :=
  ⟨(C5_cdr_disarm _ 99).1,
   (C5_cdr_disarm
      { pages := [⟨some 7, some 8, some 9, 3⟩, ⟨none, none, none, 4⟩],
        catalog := { names := some ⟨some 1, some 2, 5⟩, openAction := some 6 },
        info := .original 11 } 99).2.2.2.2.2.1 ⟨none, none, none, 4⟩ rfl rfl rfl⟩

/-! ## Pixel reconstruction pass (worker.py lines 197-241) -/

/-- The rasterization DPI passed to `convert_from_path`
(worker.py line 202). -/
def RENDER_DPI : Nat := 200

/-- Width of the `letter` page size used by the reportlab canvas
(612 points). -/
def PAGE_WIDTH : ℚ := 612

/-- Height of the `letter` page size (792 points). -/
def PAGE_HEIGHT : ℚ := 792

/-- One rasterized page image, by its pixel dimensions. -/
structure RasterImage where
  width : ℚ
  height : ℚ
deriving DecidableEq, Repr

/-- The rectangle `drawImage` receives for one page
(worker.py line 233). -/
structure Placement where
  x : ℚ
  y : ℚ
  width : ℚ
  height : ℚ
deriving DecidableEq, Repr

/-- The per-page layout arithmetic of `pixels_to_pdf`, worker.py
lines 219-231: scale the image to the available width
(`page_width - 40`) preserving aspect; if the scaled height exceeds the
available height (`page_height - 40`), rescale by height instead;
center the result on the page. -/
def placeImage (imgWidth imgHeight : ℚ) : Placement :=
  let aspect := imgHeight / imgWidth
  let displayWidth := PAGE_WIDTH - 40
  let displayHeight := displayWidth * aspect
  let wh := if displayHeight > PAGE_HEIGHT - 40 then
      ((PAGE_HEIGHT - 40) / aspect, PAGE_HEIGHT - 40)
    else (displayWidth, displayHeight)
  { x := (PAGE_WIDTH - wh.1) / 2, y := (PAGE_HEIGHT - wh.2) / 2,
    width := wh.1, height := wh.2 }

/-- One page of the re-emitted PDF: a single raster image at its
computed placement (one `drawImage` followed by one `showPage`,
worker.py lines 233-234). -/
structure OutPage where
  image : RasterImage
  placement : Placement
deriving DecidableEq, Repr

/-- `pixels_to_pdf`, worker.py lines 209-241: one output page per input
image, each holding exactly that image at its computed placement. -/
def pixels_to_pdf (images : List RasterImage) : List OutPage :=
  images.map fun img => { image := img, placement := placeImage img.width img.height }

/-- `pdf_to_pixels`, worker.py lines 197-207: rasterize the whole PDF
through the external rasterizer at `RENDER_DPI`; the rasterizer is the
oracle mapping a DPI value to the page image sequence, one image per
page. -/
def pdf_to_pixels (rasterize : Nat → List RasterImage) : List RasterImage :=
  rasterize RENDER_DPI

/-- Claim C6: the reconstruction pass rasterizes the document at
200 DPI, emits one page per raster image, and places each image
centered on a letter page inside the 40-point margin box, preserving
aspect ratio, scaling to the available width first and rescaling by
height when the width-scaled height exceeds the available height. -/
theorem C6_pixel_reconstruction (rasterize : Nat → List RasterImage)
    (images : List RasterImage) :
    pdf_to_pixels rasterize = rasterize 200 ∧
    pixels_to_pdf images = images.map
      (fun img => { image := img, placement := placeImage img.width img.height }) ∧
    (pixels_to_pdf images).length = images.length ∧
    (∀ w h : ℚ, 0 < w → 0 < h →
      (placeImage w h).height * w = (placeImage w h).width * h ∧
      (placeImage w h).x = (PAGE_WIDTH - (placeImage w h).width) / 2 ∧
      (placeImage w h).y = (PAGE_HEIGHT - (placeImage w h).height) / 2 ∧
      (placeImage w h).width ≤ PAGE_WIDTH - 40 ∧
      (placeImage w h).height ≤ PAGE_HEIGHT - 40 ∧
      (if (PAGE_WIDTH - 40) * (h / w) > PAGE_HEIGHT - 40
        then (placeImage w h).height = PAGE_HEIGHT - 40
        else (placeImage w h).width = PAGE_WIDTH - 40)) := by
  refine ⟨rfl, rfl, by simp [pixels_to_pdf], ?_⟩
  intro w h hw hh
  have ha : 0 < h / w := div_pos hh hw
  by_cases hc : (PAGE_WIDTH - 40) * (h / w) > PAGE_HEIGHT - 40
  · have hplace : placeImage w h =
        { x := (PAGE_WIDTH - (PAGE_HEIGHT - 40) / (h / w)) / 2,
          y := (PAGE_HEIGHT - (PAGE_HEIGHT - 40)) / 2,
          width := (PAGE_HEIGHT - 40) / (h / w), height := PAGE_HEIGHT - 40 } := by
      simp [placeImage, hc]
    rw [hplace, if_pos hc]
    refine ⟨?_, rfl, rfl, ?_, le_refl _, rfl⟩
    · field_simp
    · rw [div_le_iff₀ ha]
      exact le_of_lt hc
  · have hplace : placeImage w h =
        { x := (PAGE_WIDTH - (PAGE_WIDTH - 40)) / 2,
          y := (PAGE_HEIGHT - (PAGE_WIDTH - 40) * (h / w)) / 2,
          width := PAGE_WIDTH - 40, height := (PAGE_WIDTH - 40) * (h / w) } := by
      simp [placeImage, hc]
    rw [hplace, if_neg hc]
    refine ⟨?_, rfl, rfl, le_refl _, ?_, rfl⟩
    · field_simp
    · exact not_lt.mp hc

/-- Witness for claim C6: a letter-page scan at roughly 100 DPI,
850 by 1100 pixels. -/
theorem C6_pixel_reconstruction_witness :
    (0:ℚ) < 850 ∧ (0:ℚ) < 1100 ∧
    (placeImage 850 1100).height * 850 = (placeImage 850 1100).width * 1100 ∧
    (placeImage 850 1100).width ≤ PAGE_WIDTH - 40 :=
  ⟨by simp, by simp,
   ((C6_pixel_reconstruction (fun _ => []) []).2.2.2 850 1100
      (by simp) (by simp)).1,
   ((C6_pixel_reconstruction (fun _ => []) []).2.2.2 850 1100
      (by simp) (by simp)).2.2.2.1⟩

/-! ## Worker entry point (`main`, worker.py lines 283-361) -/

/-- Python truthiness of the `pdf_to_pixels` result as tested by
`if not pixel_images:` (worker.py line 323): `None` (the error return of
`pdf_to_pixels`) and the empty list are both falsy. -/
def pixelImagesTruthy : Option (List RasterImage) → Bool
  | none => false
  | some images => !images.isEmpty

/-- Environment of one worker invocation: the environment variables, the
input probe, and the outcome of each pipeline step.  `rasterOutcome` is
the return value of `pdf_to_pixels`: `none` when rasterization raised
(the function returns `None`), otherwise the page image sequence, one
image per page of the CDR output. -/
structure WorkerEnv where
  inputFileSet : Bool
  outputFileSet : Bool
  inputExists : Bool
  convertOk : Bool
  rasterOutcome : Option (List RasterImage)
  reconstructOk : Bool
  validateOk : Bool
deriving Repr

/-- `main`, worker.py lines 283-361, reduced to its exit code: each
failing step exits 1, and the rasterization result is tested with
Python truthiness (`if not pixel_images:`). -/
def worker_main (env : WorkerEnv) : Nat :=
  if env.inputFileSet = false ∨ env.outputFileSet = false then 1
  else if env.inputExists = false then 1
  else if env.convertOk = false then 1
  else if pixelImagesTruthy env.rasterOutcome = false then 1
  else if env.reconstructOk = false then 1
  else if env.validateOk = false then 1
  else 0

/-- The worker environment of a valid zero-page PDF: the environment
variables are set, the input exists, conversion and CDR succeed, and
rasterization succeeds with the empty page image sequence. -/
def zeroPageWorkerEnv : WorkerEnv :=
  { inputFileSet := true, outputFileSet := true, inputExists := true,
    convertOk := true, rasterOutcome := some [],
    reconstructOk := true, validateOk := true }

/-- Claim C8 (code bug): on a zero-page PDF the worker exits with
failure code 1, not success.  `pdf_to_pixels` signals errors by
returning `None`, but the guard `if not pixel_images:` at worker.py
line 323 also treats the empty image list of a successfully rasterized
zero-page document as a failure, so the worker reports a rasterization
error and exits 1 instead of emitting a zero-page output.  For
contrast, the same run with a one-page image sequence exits 0. -/
theorem C8_zero_page_worker_exits_failure :
    pdf_to_pixels (fun _ => []) = [] ∧
    worker_main zeroPageWorkerEnv = 1 ∧
    worker_main { zeroPageWorkerEnv with
      rasterOutcome := some [⟨850, 1100⟩] } = 0 :=
  ⟨rfl, rfl, rfl⟩

/-- Witness for claim C3: stats with two malicious flags. -/
theorem C3_stats_interpretation_witness :
    verdictOfMessage (interpretLookupStats ⟨2, 0, 0, 0⟩).2 =
      specVerdictOfStats ⟨2, 0, 0, 0⟩ ∧
    verdictOfMessage (interpretAnalysisStats ⟨2, 0, 0, 0⟩).2 =
      specVerdictOfStats ⟨2, 0, 0, 0⟩ ∧
    interpretAnalysisStats ⟨2, 0, 0, 0⟩ = interpretLookupStats ⟨2, 0, 0, 0⟩ :=
  C3_stats_interpretation ⟨2, 0, 0, 0⟩
